import Mathlib

/-!
Shallow embedding of the review-scraping core of the sentimyntra repository.

The repository ships two variants of the scraping engine:
  * `src/src/scrapper/scraper.py` (the variant imported by `app.py` and
    `quick_test.py`), embedded below with names prefixed `scrapper...`, and
  * `src/src/scraper/scraper.py`, embedded with names prefixed `scraper...`.

Browser/DOM interaction is embedded environment-style: a page is a value
recording, for each CSS selector string the code passes to BeautifulSoup or
Selenium, what that query returns (a list of matched elements, or the
stripped text of the first match).  Pure Python control flow is translated
directly; Python truthiness on optional strings is modelled explicitly.
Fallible operations (navigation, `driver.quit`) are modelled with `Except`.
-/

/-- Python truthiness of an optional string: `None` and `""` are falsy. -/
def truthyOptStr : Option String → Bool
  | none => false
  | some s => !(s == "")

/-- Contiguous-sublist test on character lists. -/
def charsHaveInfix (needle : List Char) : List Char → Bool
  | [] => needle.isEmpty
  | a :: t => needle.isPrefixOf (a :: t) || charsHaveInfix needle t

/-- Python `sub in s` substring test, on the underlying character lists. -/
def strContains (s sub : String) : Bool :=
  charsHaveInfix sub.data s.data

/-- Python `s.startswith(pre)`, on the underlying character lists. -/
def strStarts (s pre : String) : Bool :=
  pre.data.isPrefixOf s.data

/-!
## Selector resolution

Embeds the strategy-cascade loops of the scrapper variant
(`scrape_product_urls` lines 134-144 and `extract_products` lines 280-287):
try each selector in order, stop at the first one returning a non-empty
element list.  An exception inside one attempt has the same effect as an
empty result (the loop `continue`s), so `find` is total here.
-/

/-- First-non-empty strategy cascade, as in the loops of the scrapper variant. -/
def resolveFirst {α : Type} (strats : List String) (find : String → List α) : List α :=
  match strats with
  | [] => []
  | s :: rest =>
    let es := find s
    if es.isEmpty then resolveFirst rest find else es

/-- A rendered page for selector-semantics purposes: element ids in document
order, plus which single CSS selector alternatives each element matches. -/
structure PageModel where
  elems : List Nat
  matchesSel : Nat → String → Bool

/-- Result of one single-selector query on a page: the matching elements in
document order. -/
def selectSingle (p : PageModel) (sel : String) : List Nat :=
  p.elems.filter (fun e => p.matchesSel e sel)

/-- Result of a comma-group CSS query `sel1, sel2, ...`: every element
matching any alternative, in document order (the union). -/
def selectUnion (p : PageModel) (sels : List String) : List Nat :=
  p.elems.filter (fun e => sels.any (fun s => p.matchesSel e s))

/-- The four comma-separated alternatives of the product anchor query of the scraper variant (`scraper.py` line 93). -/
def scraperProductSelectors : List String :=
  ["li.product-base a[href]", "ul.results-base li a[href]",
   "a[href^=\x27/p/\x27]", "a[href*=\x27/product/\x27]"]

/-- Embeds `scraper.py` line 93: one combined `soup.select` over the four
alternatives of `scraperProductSelectors`. -/
def scraperAnchorsSelect (p : PageModel) : List Nat :=
  selectUnion p scraperProductSelectors

/-!
## Product discovery
-/

/-- Heuristic of `scrapper/scraper.py` line 157: keep an href if it contains
one of the product-path markers or the site domain. -/
def scrapperKeepHref (href : String) : Bool :=
  (["/p/", "/product", "/buy/", "/products/"].any fun x => strContains href x)
    || strContains href "myntra.com"

/-- Normalization of `scrapper/scraper.py` lines 159-160: protocol-relative
hrefs get an `https:` scheme. -/
def scrapperNormalize (href : String) : String :=
  if strStarts href "//" then "https:" ++ href else href

/-- Embeds the collection loop of `scrapper/scraper.py` lines 150-165 over
the hrefs of the resolved anchors (`None` when `get_attribute` yields nothing):
skip falsy hrefs, keep and normalize matching ones, and break out as soon
as the collected list reaches `no_of_products`.  The break check is skipped
on `continue` paths, exactly as in the source. -/
def scrapperCollectAux (n : Nat) : List (Option String) → List String → List String
  | [], acc => acc
  | h? :: t, acc =>
    match h? with
    | none => scrapperCollectAux n t acc
    | some h =>
      if h = "" then scrapperCollectAux n t acc
      else
        let acc' := if scrapperKeepHref h then acc ++ [scrapperNormalize h] else acc
        if n ≤ acc'.length then acc' else scrapperCollectAux n t acc'

/-- Order-preserving first-seen deduplication with an accumulator; the
Python `seen` set always holds exactly the elements of the accumulator. -/
def dedupeAux : List String → List String → List String
  | [], acc => acc
  | l :: t, acc => dedupeAux t (if l ∈ acc then acc else acc ++ [l])

/-- Embeds the dedupe loop of `scrapper/scraper.py` lines 168-173. -/
def dedupe (ls : List String) : List String :=
  dedupeAux ls []

/-- Embeds `scrapper/scraper.py` `scrape_product_urls` from the anchor hrefs onward: capped collection, then dedupe, then `unique[:no_of_products]`. -/
def scrapperProductUrls (n : Nat) (hrefs : List (Option String)) : List String :=
  (dedupe (scrapperCollectAux n hrefs [])).take n

/-- Model of `urllib.parse.urljoin("https://www.myntra.com/", href)` for the
href shapes relevant here: absolute URLs pass through, protocol-relative
and root-relative ones are completed against the base. -/
def urljoinMyntra (href : String) : String :=
  if strStarts href "http://" || strStarts href "https://" then href
  else if strStarts href "//" then "https:" ++ href
  else if strStarts href "/" then "https://www.myntra.com" ++ href
  else "https://www.myntra.com/" ++ href

/-- Heuristic of `scraper/scraper.py` line 104: product-path markers. -/
def scraperKeepUrl (u : String) : Bool :=
  strContains u "/p/" || strContains u "/product/" || strContains u "/buy"

/-- Embeds the filtering loop of `scraper/scraper.py` lines 94-105: skip
falsy hrefs, join against the base, drop non-myntra URLs, keep product-like
ones.  No cap is applied at this stage in that variant. -/
def scraperProductLinks (hrefs : List (Option String)) : List String :=
  hrefs.filterMap fun h? =>
    match h? with
    | none => none
    | some h =>
      if h = "" then none
      else
        let full := urljoinMyntra h
        if !strContains full "myntra.com" then none
        else if scraperKeepUrl full then some full else none

/-- Embeds the fused dedupe-and-truncate loop of `scraper/scraper.py`
lines 107-114: add unseen links in order, and break as soon as the unique
list reaches `no_of_products` (the break check runs on every iteration). -/
def scraperDedupeTruncAux (n : Nat) : List String → List String → List String
  | [], acc => acc
  | l :: t, acc =>
    let acc' := if l ∈ acc then acc else acc ++ [l]
    if n ≤ acc'.length then acc' else scraperDedupeTruncAux n t acc'

/-- Embeds `scraper/scraper.py` `scrape_product_urls` from the collected
links onward. -/
def scraperProductUrls (n : Nat) (hrefs : List (Option String)) : List String :=
  scraperDedupeTruncAux n (scraperProductLinks hrefs) []

/-- The full (uncapped) collected link list of the scrapper variant, with
the same per-href skipping, heuristic and normalization as
`scrapperCollectAux` but no early break. -/
def scrapperCollectAll (hrefs : List (Option String)) : List String :=
  hrefs.filterMap fun h? =>
    match h? with
    | none => none
    | some h =>
      if h = "" then none
      else if scrapperKeepHref h then some (scrapperNormalize h) else none

/-- Follows the wording of the spec for Discovery step 5 ("Deduplicate preserving
first-seen order; truncate to productLimit"): deduplicate the full collected
link list, only then truncate.  Stated over the collection heuristics of the scrapper variant, for comparison with `scrapperProductUrls`. -/
def dedupeThenTruncate (n : Nat) (hrefs : List (Option String)) : List String :=
  (dedupe (scrapperCollectAll hrefs)).take n

example : strContains "https://www.myntra.com/p/a" "/p/" = true := by decide
example : scrapperProductUrls 2 [some "https://www.myntra.com/p/a",
  some "https://www.myntra.com/p/a", some "https://www.myntra.com/p/b",
  some "https://www.myntra.com/p/b", some "https://www.myntra.com/p/c"]
    = ["https://www.myntra.com/p/a"] := by decide
example : scraperProductUrls 2 [some "/p/a", some "/p/a", some "/p/b",
  some "/p/b", some "/p/c"]
    = ["https://www.myntra.com/p/a", "https://www.myntra.com/p/b"] := by decide

/-!
## Review locator
-/

/-- State of a product page in the scrapper variant `extract_reviews`
after the click attempt and scroll: the current URL, whether the
review-block marker query (`scrapper/scraper.py` line 236) matched,
whether `_try_click_review_anchor` reported a click, and the static
reviews-anchor lookup of line 244 (`none` when no anchor matched,
`some none` when the anchor has no `href` attribute). -/
structure LocatorPage where
  currentUrl : String
  hasReviewBlocks : Bool
  clicked : Bool
  anchorHref : Option (Option String)

/-- Anchor-href normalization of `scrapper/scraper.py` lines 247-248: a
truthy href not starting with `http` is prefixed with the site origin. -/
def scrapperNormalizeAnchor (h : String) : String :=
  if h = "" then h
  else if strStarts h "http" then h
  else "https://www.myntra.com" ++ h

/-- Embeds the decision cascade of `scrapper/scraper.py` `extract_reviews`
lines 236-253: review blocks present, else click occurred, else static
anchor href, else `None`. -/
def scrapperExtractReviews (p : LocatorPage) : Option String :=
  if p.hasReviewBlocks then some p.currentUrl
  else if p.clicked then some p.currentUrl
  else
    match p.anchorHref with
    | some h? =>
      match h? with
      | some h => some (scrapperNormalizeAnchor h)
      | none => none
    | none => none

/-- Embeds `scraper/scraper.py` `extract_reviews` lines 136-157: look for a
reviews anchor; with no anchor, or an anchor with a falsy href, return the
product URL itself; otherwise return the href, joined against the base when
it is not already absolute. -/
def scraperExtractReviews (productUrl : String) (anchorHref : Option (Option String)) : String :=
  match anchorHref with
  | none => productUrl
  | some none => productUrl
  | some (some h) =>
    if h = "" then productUrl
    else if strStarts h "http" then h
    else urljoinMyntra h

/-!
## Review extraction
-/

/-- A review block: what each per-field `select_one` query returns on it
(the stripped text of the first match, or `none` when nothing matched). -/
structure Block where
  selOne : String → Option String

/-- A review record matching the scrapper variant DataFrame rows
(`scrapper/scraper.py` lines 318-328). -/
structure ReviewRecord where
  productName : String
  overAllRating : Option String
  price : Option String
  date : Option String
  rating : Option String
  name : Option String
  comment : Option String
deriving DecidableEq, Repr

/-- A review record matching the scraper variant DataFrame rows
(`scraper/scraper.py` lines 220-229). -/
structure ScraperRecord where
  productName : String
  price : Option String
  date : Option String
  rating : Option String
  name : Option String
  comment : Option String
deriving DecidableEq, Repr

/-- The review-container selector cascade of `scrapper/scraper.py`
lines 273-279. -/
def scrapperReviewSelectors : List String :=
  ["div.detailed-reviews-userReviewsContainer", "li.user-review-item",
   "div.user-review", "div.review", ".ratingReviews"]

/-- Embeds the per-block field extraction and drop filter of
`scrapper/scraper.py` lines 300-330: each field comes from its own
fallback-selector chain, and a block whose comment and rating are both
falsy is skipped (`continue`). -/
def scrapperBuildRecord (title : String) (b : Block) : Option ReviewRecord :=
  let rating := b.selOne ".user-review-starRating, .rating, .star-rating, .index-starRating"
  let comment := b.selOne ".user-review-reviewTextWrapper, .review-text, p, .comment"
  let name := b.selOne ".user-review-left span, .user-name, .reviewer, .author"
  let date := b.selOne ".user-review-left span:nth-of-type(2), .review-date, .date"
  if !truthyOptStr comment && !truthyOptStr rating then none
  else
    some { productName := title, overAllRating := none, price := none,
           date := date, rating := rating, name := name, comment := comment }

/-- Embeds `scrapper/scraper.py` `extract_products` lines 270-335 on a
loaded page: resolve review blocks through the selector cascade, take the
page title (or the fallback), and map the surviving blocks to records. -/
def scrapperExtractProducts (title? : Option String) (blockFind : String → List Block) :
    List ReviewRecord :=
  let blocks := resolveFirst scrapperReviewSelectors blockFind
  let title := title?.getD "Unknown Product"
  blocks.filterMap (scrapperBuildRecord title)

/-- Embeds the per-block field extraction of `scraper/scraper.py`
lines 201-229: fields come from per-field selector chains, the price from a
page-level query, and every block is appended — there is no drop filter. -/
def scraperBuildRecord (title : String) (pagePrice : Option String) (b : Block) : ScraperRecord :=
  { productName := title
    price := pagePrice
    date := b.selOne ".user-review-left span:nth-of-type(2), .review-date, .date"
    rating := b.selOne ".user-review-starRating, .rating, .index-starRating, span.rating, .star"
    name := b.selOne ".user-review-left span, .user-name, .reviewer, .name"
    comment := b.selOne ".user-review-reviewTextWrapper, .review-text, p, .comments, .review" }

/-- Embeds `scraper/scraper.py` `extract_products` lines 188-243 on a loaded
page: the single comma-group block query yields `blocks`, the title (or the
fallback) and page-level price are shared, and every block becomes a
record. -/
def scraperExtractProducts (title? : Option String) (pagePrice : Option String)
    (blocks : List Block) : List ScraperRecord :=
  let title := title?.getD "Unknown Product"
  blocks.map (scraperBuildRecord title pagePrice)

/-!
## Scroll-until-stable

Both variants share the same loop (`scrapper/scraper.py` `_scroll_down`
lines 95-102, `scraper/scraper.py` `scroll_to_load_reviews` lines 164-171):
measure the page height, then scroll at most `max_scrolls` times, stopping
as soon as a re-measurement equals the previous one.  `height k` is the
measurement taken after `k` scrolls (`height 0` the initial one).
-/

/-- The scroll loop with remaining fuel and the number of scrolls already
performed; returns the total number of scrolls performed. -/
def scrollLoopAux (height : Nat → Int) : Nat → Nat → Nat
  | 0, i => i
  | fuel + 1, i =>
    if height (i + 1) = height i then i + 1
    else scrollLoopAux height fuel (i + 1)

/-- Number of scrolls performed by the scroll-until-stable loop with the
given measurement sequence and scroll ceiling. -/
def scrollCount (height : Nat → Int) (maxScrolls : Nat) : Nat :=
  scrollLoopAux height maxScrolls 0

/-!
## Orchestration (`get_review_data`) and session close
-/

/-- The per-product location-plus-extraction step in the scrapper variant loop (`scrapper/scraper.py` lines 353-365): locate the review page, skip
extraction when the result is falsy, otherwise extract.  Any exception in
either call surfaces as `Except.error`. -/
def scrapperStep {E α : Type} (locate : String → Except E (Option String))
    (extract : String → Except E (List α)) (u : String) : Except E (List α) :=
  match locate u with
  | .error e => .error e
  | .ok none => .ok []
  | .ok (some rp) => if rp = "" then .ok [] else extract rp

/-- Embeds the product loop of `scrapper/scraper.py` `get_review_data`
lines 352-368: a failing step is swallowed by the per-product
`except Exception: continue`, a successful one contributes its records. -/
def scrapperRunLoop {E α : Type} (locate : String → Except E (Option String))
    (extract : String → Except E (List α)) : List String → List α
  | [] => []
  | u :: rest =>
    match scrapperStep locate extract u with
    | .ok recs => recs ++ scrapperRunLoop locate extract rest
    | .error _ => scrapperRunLoop locate extract rest

/-- Embeds the product loop of `scraper/scraper.py` `get_review_data`
lines 253-264: there is no per-product handler, so an exception from
locating or extracting propagates and aborts the whole run. -/
def scraperRunLoop {E α : Type} (locate : String → Except E String)
    (extract : String → Except E (List α)) : List String → Except E (List α)
  | [] => .ok []
  | u :: rest =>
    match locate u with
    | .error e => .error e
    | .ok rl =>
      if rl = "" then scraperRunLoop locate extract rest
      else
        match extract rl with
        | .error e => .error e
        | .ok recs =>
          match scraperRunLoop locate extract rest with
          | .error e => .error e
          | .ok acc => .ok (recs ++ acc)

/-- An error wrapped into `CustomException(e, sys)` before being re-raised
to the caller (`src/exception.py`). -/
inductive RunError (E : Type) where
  | custom : E → RunError E
deriving DecidableEq, Repr

/-- Embeds `scrape_product_urls` of the scrapper variant including its
navigation step (line 119) and outer handler (lines 182-183): a failed
`driver.get` raises, the outer `except` wraps it in `CustomException` and
re-raises; on success the discovery pipeline runs on the anchors of the page. -/
def scrapperScrapeProductUrlsE {E : Type} (nav : Except E (List (Option String)))
    (n : Nat) : Except (RunError E) (List String) :=
  match nav with
  | .error e => .error (.custom e)
  | .ok hrefs => .ok (scrapperProductUrls n hrefs)

/-- Embeds `scrape_product_urls` of the scraper variant including its
navigation step (lines 75-80, which re-raises `WebDriverException`) and
outer handler (lines 121-122). -/
def scraperScrapeProductUrlsE {E : Type} (nav : Except E (List (Option String)))
    (n : Nat) : Except (RunError E) (List String) :=
  match nav with
  | .error e => .error (.custom e)
  | .ok hrefs => .ok (scraperProductUrls n hrefs)

/-- Embeds `get_review_data` of the scrapper variant (lines 344-381):
discovery, then the per-product loop; an exception escaping discovery is
wrapped and re-raised by the outer handler. -/
def scrapperGetReviewDataE {E α : Type} (nav : Except E (List (Option String))) (n : Nat)
    (locate : String → Except (RunError E) (Option String))
    (extract : String → Except (RunError E) (List α)) : Except (RunError E) (List α) :=
  match scrapperScrapeProductUrlsE nav n with
  | .error e => .error e
  | .ok urls => .ok (scrapperRunLoop locate extract urls)

/-!
## Browser session close

The `close` of both variants (`scrapper/scraper.py` lines 391-399,
`scraper/scraper.py` lines 279-289) guard on `hasattr(self, "driver")` and
wrap `driver.quit()` in a bare `except: pass`.  `quitFaulty` records whether
the `quit` of this driver raises; the driver attribute itself is never removed.
-/

/-- Browser session state visible to `close`. -/
structure Session where
  hasDriver : Bool
  driverAlive : Bool
  quitFaulty : Bool
deriving DecidableEq, Repr

/-- `driver.quit()`: fails when the driver is faulty, else the browser
process is released. -/
def quitDriver (s : Session) : Except Unit Session :=
  if s.quitFaulty then .error () else .ok { s with driverAlive := false }

/-- The body of `close` before its exception handler: quit when a driver
attribute exists. -/
def closeBody (s : Session) : Except Unit Session :=
  if s.hasDriver then quitDriver s else .ok s

/-- `close` as implemented in both variants: the bare `except: pass` turns
any failure into a no-op. -/
def closeSession (s : Session) : Except Unit Session :=
  match closeBody s with
  | .ok s2 => .ok s2
  | .error _ => .ok s

/-!
## Supporting lemmas
-/

theorem take_length_append {α : Type} (l r : List α) : (l ++ r).take l.length = l := by
  induction l with
  | nil => simp
  | cons a t ih => simp [ih]

theorem dedupeAux_extends (t : List String) :
    ∀ acc : List String, ∃ r, dedupeAux t acc = acc ++ r := by
  induction t with
  | nil => intro acc; exact ⟨[], by simp [dedupeAux]⟩
  | cons l t ih =>
    intro acc
    by_cases h : l ∈ acc
    · obtain ⟨r, hr⟩ := ih acc
      exact ⟨r, by simp [dedupeAux, h, hr]⟩
    · obtain ⟨r, hr⟩ := ih (acc ++ [l])
      refine ⟨[l] ++ r, ?_⟩
      simp only [dedupeAux, if_neg h, hr, List.append_assoc]

theorem dedupeAux_nodup (t : List String) :
    ∀ acc : List String, acc.Nodup → (dedupeAux t acc).Nodup := by
  induction t with
  | nil => intro acc h; simpa [dedupeAux] using h
  | cons l t ih =>
    intro acc h
    by_cases hm : l ∈ acc
    · simpa [dedupeAux, hm] using ih acc h
    · have h2 : (acc ++ [l]).Nodup := by
        simp [List.nodup_append, h, hm]
      simpa [dedupeAux, hm] using ih (acc ++ [l]) h2

theorem dedupe_nodup (ls : List String) : (dedupe ls).Nodup :=
  dedupeAux_nodup ls [] List.nodup_nil

theorem scraperDedupeTruncAux_eq_take (n : Nat) (t : List String) :
    ∀ acc : List String, acc.length < n →
      scraperDedupeTruncAux n t acc = (dedupeAux t acc).take n := by
  induction t with
  | nil =>
    intro acc h
    simp [scraperDedupeTruncAux, dedupeAux, List.take_of_length_le (Nat.le_of_lt h)]
  | cons l t ih =>
    intro acc h
    by_cases hm : l ∈ acc
    · have hle : ¬ n ≤ acc.length := by omega
      have e1 : scraperDedupeTruncAux n (l :: t) acc = scraperDedupeTruncAux n t acc := by
        simp [scraperDedupeTruncAux, hm, hle]
      have e2 : dedupeAux (l :: t) acc = dedupeAux t acc := by
        simp [dedupeAux, hm]
      rw [e1, e2]
      exact ih acc h
    · have e2 : dedupeAux (l :: t) acc = dedupeAux t (acc ++ [l]) := by
        simp [dedupeAux, hm]
      by_cases hn : n ≤ (acc ++ [l]).length
      · have hn2 : n ≤ acc.length + 1 := by simpa using hn
        have e1 : scraperDedupeTruncAux n (l :: t) acc = acc ++ [l] := by
          simp [scraperDedupeTruncAux, hm, hn2]
        have hlen : (acc ++ [l]).length = n := by
          have hl : (acc ++ [l]).length = acc.length + 1 := by simp
          omega
        obtain ⟨r, hr⟩ := dedupeAux_extends t (acc ++ [l])
        rw [e1, e2, hr, ← hlen]
        exact (take_length_append (acc ++ [l]) r).symm
      · have hn2 : ¬ n ≤ acc.length + 1 := by simpa using hn
        have e1 : scraperDedupeTruncAux n (l :: t) acc = scraperDedupeTruncAux n t (acc ++ [l]) := by
          simp [scraperDedupeTruncAux, hm, hn2]
        have h2 : (acc ++ [l]).length < n := by
          have hl : (acc ++ [l]).length = acc.length + 1 := by simp
          omega
        rw [e1, e2]
        exact ih (acc ++ [l]) h2

theorem scraperProductUrls_eq_dedupe_take (n : Nat) (hn : 1 ≤ n)
    (hrefs : List (Option String)) :
    scraperProductUrls n hrefs = (dedupe (scraperProductLinks hrefs)).take n := by
  unfold scraperProductUrls dedupe
  exact scraperDedupeTruncAux_eq_take n (scraperProductLinks hrefs) [] (by simpa using hn)

theorem resolveFirst_eq_nil_iff {α : Type} (strats : List String) (find : String → List α) :
    resolveFirst strats find = [] ↔ ∀ s ∈ strats, find s = [] := by
  induction strats with
  | nil => simp [resolveFirst]
  | cons s rest ih =>
    by_cases h : (find s).isEmpty
    · have hnil : find s = [] := by simpa using h
      simp [resolveFirst, h, ih, hnil]
    · have hne : find s ≠ [] := by simpa using h
      simp only [resolveFirst, if_neg h]
      constructor
      · intro hc; exact absurd hc hne
      · intro hall; exact absurd (hall s (by simp)) hne

theorem resolveFirst_first_match {α : Type} (pre : List String) (s : String) (post : List String)
    (find : String → List α) (hpre : ∀ t ∈ pre, find t = []) (hs : find s ≠ []) :
    resolveFirst (pre ++ s :: post) find = find s := by
  induction pre with
  | nil =>
    have h : ¬ (find s).isEmpty := by simpa using hs
    simp [resolveFirst, h]
  | cons a t ih =>
    have ha : find a = [] := hpre a (by simp)
    have h2 : ∀ x ∈ t, find x = [] := fun x hx => hpre x (by simp [hx])
    simpa [resolveFirst, ha] using ih h2

theorem scrollLoopAux_le (height : Nat → Int) :
    ∀ fuel i, scrollLoopAux height fuel i ≤ i + fuel := by
  intro fuel
  induction fuel with
  | zero => intro i; simp [scrollLoopAux]
  | succ f ih =>
    intro i
    by_cases he : height (i + 1) = height i
    · simp only [scrollLoopAux, if_pos he]
      omega
    · have h := ih (i + 1)
      simp only [scrollLoopAux, if_neg he]
      omega

theorem scrollLoopAux_stop (height : Nat → Int) (k : Nat) (hk : height (k + 1) = height k) :
    ∀ fuel i, i ≤ k → k < i + fuel →
      (∀ j, i ≤ j → j < k → height (j + 1) ≠ height j) →
      scrollLoopAux height fuel i = k + 1 := by
  intro fuel
  induction fuel with
  | zero => intro i h1 h2 _; omega
  | succ f ih =>
    intro i h1 h2 h3
    by_cases he : height (i + 1) = height i
    · have hik : i = k := by
        by_contra hne
        exact h3 i (Nat.le_refl i) (Nat.lt_of_le_of_ne h1 hne) he
      subst hik
      simp only [scrollLoopAux, if_pos he]
    · have hne : i ≠ k := by
        intro hEq
        subst hEq
        exact he hk
      have hik : i < k := Nat.lt_of_le_of_ne h1 hne
      have h3n : ∀ j, i + 1 ≤ j → j < k → height (j + 1) ≠ height j :=
        fun j hj1 hj2 => h3 j (by omega) hj2
      have hrec := ih (i + 1) (by omega) (by omega) h3n
      simp only [scrollLoopAux, if_neg he, hrec]

/-!
## Claim theorems
-/

/-- Claim C5: for every well-formed request with productLimit `n ≥ 1`, both
variants, product discovery returns a list of at most `n` product URLs with
no duplicate URLs (exact string equality). -/
theorem c5_discovery_bounded_nodup (n : Nat) (hn : 1 ≤ n)
    (hrefs1 hrefs2 : List (Option String)) :
    ((scrapperProductUrls n hrefs1).length ≤ n ∧ (scrapperProductUrls n hrefs1).Nodup) ∧
      ((scraperProductUrls n hrefs2).length ≤ n ∧ (scraperProductUrls n hrefs2).Nodup) := by
  constructor
  · constructor
    · unfold scrapperProductUrls
      rw [List.length_take]
      exact Nat.min_le_left _ _
    · unfold scrapperProductUrls
      exact List.Nodup.sublist (List.take_sublist n _) (dedupe_nodup _)
  · rw [scraperProductUrls_eq_dedupe_take n hn hrefs2]
    constructor
    · rw [List.length_take]
      exact Nat.min_le_left _ _
    · exact List.Nodup.sublist (List.take_sublist n _) (dedupe_nodup _)

/-- Claim C5 witness: a concrete request with limit 2 over five anchors. -/
theorem c5_witness :
    1 ≤ 2 ∧
      (((scrapperProductUrls 2 [some "https://www.myntra.com/p/a",
          some "https://www.myntra.com/p/a", some "https://www.myntra.com/p/b",
          some "https://www.myntra.com/p/b", some "https://www.myntra.com/p/c"]).length ≤ 2 ∧
        (scrapperProductUrls 2 [some "https://www.myntra.com/p/a",
          some "https://www.myntra.com/p/a", some "https://www.myntra.com/p/b",
          some "https://www.myntra.com/p/b", some "https://www.myntra.com/p/c"]).Nodup) ∧
       ((scraperProductUrls 2 [some "/p/a", some "/p/a", some "/p/b",
          some "/p/b", some "/p/c"]).length ≤ 2 ∧
        (scraperProductUrls 2 [some "/p/a", some "/p/a", some "/p/b",
          some "/p/b", some "/p/c"]).Nodup)) :=
  ⟨by decide,
   c5_discovery_bounded_nodup 2 (by decide)
     [some "https://www.myntra.com/p/a", some "https://www.myntra.com/p/a",
      some "https://www.myntra.com/p/b", some "https://www.myntra.com/p/b",
      some "https://www.myntra.com/p/c"]
     [some "/p/a", some "/p/a", some "/p/b", some "/p/b", some "/p/c"]⟩

/-- Five scrapper-variant candidate hrefs with two duplicates. -/
def c6Hrefs : List (Option String) :=
  [some "https://www.myntra.com/p/a", some "https://www.myntra.com/p/a",
   some "https://www.myntra.com/p/b", some "https://www.myntra.com/p/b",
   some "https://www.myntra.com/p/c"]

/-- Claim C6 counterexample: the scrapper variant breaks out of collection
at `productLimit` BEFORE deduplicating, so five candidate links with two
duplicates and limit 2 yield a single URL, not the first two of the three
unique URLs that dedupe-then-truncate (the order the claim states, `dedupeThenTruncate`)
produces. -/
theorem c6_counterexample :
    scrapperProductUrls 2 c6Hrefs = ["https://www.myntra.com/p/a"] ∧
      dedupeThenTruncate 2 c6Hrefs =
        ["https://www.myntra.com/p/a", "https://www.myntra.com/p/b"] ∧
      scrapperProductUrls 2 c6Hrefs ≠ dedupeThenTruncate 2 c6Hrefs :=
  ⟨by decide, by decide, by decide⟩

/-- Claim C6 (amended): the fused dedupe-and-truncate loop of the scraper variant
computes exactly dedupe-then-truncate (for any limit `n ≥ 1`), so there the
scenario returns the first two unique URLs; the scrapper variant instead
caps the collected list at the limit before deduplicating (see the
counterexample). -/
theorem c6_scraper_dedupe_then_truncate (n : Nat) (hn : 1 ≤ n)
    (hrefs : List (Option String)) :
    scraperProductUrls n hrefs = (dedupe (scraperProductLinks hrefs)).take n :=
  scraperProductUrls_eq_dedupe_take n hn hrefs

/-- Claim C6 witness: the five-link two-duplicate scenario with limit 2 in
the scraper variant. -/
theorem c6_witness :
    1 ≤ 2 ∧
      scraperProductUrls 2 [some "/p/a", some "/p/a", some "/p/b", some "/p/b", some "/p/c"] =
        (dedupe (scraperProductLinks
          [some "/p/a", some "/p/a", some "/p/b", some "/p/b", some "/p/c"])).take 2 :=
  ⟨by decide, c6_scraper_dedupe_then_truncate 2 (by decide)
    [some "/p/a", some "/p/a", some "/p/b", some "/p/b", some "/p/c"]⟩

/-- Claim C8: for every height-measurement sequence the scroll loop performs
at most `maxScrolls` scrolls (it terminates — `scrollCount` is total), and
stops at scroll `k + 1` when `k + 1` is the first re-measurement equal to
its predecessor within the ceiling. -/
theorem c8_scroll_bounded (height : Nat → Int) (m : Nat) :
    scrollCount height m ≤ m ∧
      ∀ k, k < m → height (k + 1) = height k →
        (∀ j, j < k → height (j + 1) ≠ height j) →
        scrollCount height m = k + 1 := by
  constructor
  · simpa using scrollLoopAux_le height m 0
  · intro k hk hstable hfirst
    exact scrollLoopAux_stop height k hstable m 0 (Nat.zero_le k) (by omega)
      (fun j _ hj => hfirst j hj)

/-- A height sequence that grows once and then stabilizes. -/
def c8Height : Nat → Int := fun i => if i = 0 then 100 else 200

/-- Claim C8 witness: with ceiling 5 the loop stops after 2 scrolls, within
the ceiling. -/
theorem c8_witness : scrollCount c8Height 5 ≤ 5 ∧ scrollCount c8Height 5 = 2 :=
  ⟨(c8_scroll_bounded c8Height 5).1,
   (c8_scroll_bounded c8Height 5).2 1 (by decide) (by decide) (by decide)⟩

/-- A truthy optional string is in particular present (not `None`). -/
theorem truthyOptStr_ne_none {o : Option String} (h : truthyOptStr o = true) : o ≠ none := by
  cases o with
  | none => simp [truthyOptStr] at h
  | some s => simp

/-- A record surviving the drop filter of the scrapper variant has a truthy
comment or a truthy rating. -/
theorem scrapperBuildRecord_filters (title : String) (b : Block) (r : ReviewRecord)
    (h : scrapperBuildRecord title b = some r) :
    truthyOptStr r.comment = true ∨ truthyOptStr r.rating = true := by
  unfold scrapperBuildRecord at h
  dsimp only at h
  split at h
  · exact absurd h (by simp)
  · rename_i hcond
    injection h with h2
    subst h2
    cases hca : truthyOptStr (b.selOne ".user-review-reviewTextWrapper, .review-text, p, .comment") with
    | true => exact Or.inl rfl
    | false =>
      cases hcb : truthyOptStr
          (b.selOne ".user-review-starRating, .rating, .star-rating, .index-starRating") with
      | true => exact Or.inr rfl
      | false => exact absurd (by simp [hca, hcb]) hcond

/-- Claim C1 (amended): in the scrapper variant — the one `app.py` runs —
every emitted record has `comment` or `rating` present, and a parsed block
whose comment and rating queries both miss is dropped; the scraper variant
has no such filter (see the counterexample). -/
theorem c1_records_have_comment_or_rating :
    (∀ (title? : Option String) (blockFind : String → List Block) (r : ReviewRecord),
        r ∈ scrapperExtractProducts title? blockFind →
        (r.comment ≠ none ∨ r.rating ≠ none)) ∧
    (∀ (title : String) (b : Block),
        b.selOne ".user-review-reviewTextWrapper, .review-text, p, .comment" = none →
        b.selOne ".user-review-starRating, .rating, .star-rating, .index-starRating" = none →
        scrapperBuildRecord title b = none) := by
  constructor
  · intro title? blockFind r hr
    unfold scrapperExtractProducts at hr
    rw [List.mem_filterMap] at hr
    obtain ⟨b, _, hb⟩ := hr
    rcases scrapperBuildRecord_filters _ b r hb with hc | hrat
    · exact Or.inl (truthyOptStr_ne_none hc)
    · exact Or.inr (truthyOptStr_ne_none hrat)
  · intro title b hc hrat
    unfold scrapperBuildRecord
    rw [hc, hrat]
    simp [truthyOptStr]

/-- Claim C1 counterexample: the extractor of the scraper variant applies no
drop filter — a review block on which every field query misses is emitted
as a record with `comment` and `rating` both absent, falsifying the claim
for the ReviewDataset outputs of that variant. -/
theorem c1_counterexample :
    scraperExtractProducts (some "T") none [Block.mk (fun _ => none)] =
      [{ productName := "T", price := none, date := none, rating := none,
         name := none, comment := none }] ∧
      ¬ (∀ r ∈ scraperExtractProducts (some "T") none [Block.mk (fun _ => none)],
          r.comment ≠ none ∨ r.rating ≠ none) :=
  ⟨by decide, by decide⟩

/-- A block whose comment query hits and whose rating query misses. -/
def c1Block : Block :=
  ⟨fun sel =>
    if sel = ".user-review-reviewTextWrapper, .review-text, p, .comment" then some "nice kurta"
    else none⟩

/-- Block lookup on which only the third review-container selector hits. -/
def c1BlockFind : String → List Block :=
  fun sel => if sel = "div.user-review" then [c1Block] else []

/-- Claim C1 witness: a concrete scrapper-variant extraction whose single
record has its comment present. -/
theorem c1_witness :
    ({ productName := "T", overAllRating := none, price := none, date := none,
       rating := none, name := none, comment := some "nice kurta" } : ReviewRecord).comment ≠ none ∨
      ({ productName := "T", overAllRating := none, price := none, date := none,
         rating := none, name := none, comment := some "nice kurta" } : ReviewRecord).rating ≠ none :=
  c1_records_have_comment_or_rating.1 (some "T") c1BlockFind _ (by decide)

/-- Claim C10: every record the scrapper variant extractor emits has
`Price` and `Over_All_Rating` unconditionally absent. -/
theorem c10_price_overall_absent (title? : Option String)
    (blockFind : String → List Block) (r : ReviewRecord)
    (hr : r ∈ scrapperExtractProducts title? blockFind) :
    r.price = none ∧ r.overAllRating = none := by
  unfold scrapperExtractProducts at hr
  rw [List.mem_filterMap] at hr
  obtain ⟨b, _, hb⟩ := hr
  unfold scrapperBuildRecord at hb
  dsimp only at hb
  split at hb
  · exact absurd hb (by simp)
  · injection hb with h2
    subst h2
    exact ⟨rfl, rfl⟩

/-- Claim C10 witness: the concrete extraction of `c1BlockFind` produces a
record with price and overall rating absent. -/
theorem c10_witness :
    ({ productName := "T", overAllRating := none, price := none, date := none,
       rating := none, name := none, comment := some "nice kurta" } : ReviewRecord).price = none ∧
      ({ productName := "T", overAllRating := none, price := none, date := none,
         rating := none, name := none, comment := some "nice kurta" } : ReviewRecord).overAllRating = none :=
  c10_price_overall_absent (some "T") c1BlockFind _ (by decide)

/-- Claim C2 (amended): the resolution loops of the scrapper variant try the
strategies strictly in order, return exactly the first non-empty strategy
result (never merging), and return empty exactly when every strategy yields
nothing.  The product-anchor query of the scraper variant instead runs one
combined comma-group selector whose result is the document-order union of
its alternatives (see the counterexample). -/
theorem c2_resolver_first_nonempty (α : Type) :
    (∀ (strats : List String) (find : String → List α),
        resolveFirst strats find = [] ↔ ∀ s ∈ strats, find s = []) ∧
    (∀ (pre : List String) (s : String) (post : List String) (find : String → List α),
        (∀ t ∈ pre, find t = []) → find s ≠ [] →
        resolveFirst (pre ++ s :: post) find = find s) :=
  ⟨fun strats find => resolveFirst_eq_nil_iff strats find,
   fun pre s post find h1 h2 => resolveFirst_first_match pre s post find h1 h2⟩

/-- A page on which element 0 matches only the first product-anchor
alternative and element 1 matches only the fourth. -/
def c2Page : PageModel :=
  { elems := [0, 1]
    matchesSel := fun e sel =>
      (e == 0 && sel == "li.product-base a[href]") ||
        (e == 1 && sel == "a[href*=\x27/product/\x27]") }

/-- Claim C2 counterexample: the product-anchor query of the scraper variant
(`scraperAnchorsSelect`) returns the union [0, 1] of elements matched by
two different strategies, not the element set [0] of the first strategy
that yields at least one element. -/
theorem c2_counterexample :
    scraperAnchorsSelect c2Page = [0, 1] ∧
      resolveFirst scraperProductSelectors (selectSingle c2Page) = [0] ∧
      scraperAnchorsSelect c2Page ≠
        resolveFirst scraperProductSelectors (selectSingle c2Page) :=
  ⟨by decide, by decide, by decide⟩

/-- A strategy-result function on which only the second strategy hits. -/
def c2Find : String → List Nat := fun s => if s = "b" then [7] else []

/-- Claim C2 witness: with strategies ["a", "b"] where "a" yields nothing,
resolution returns exactly the elements of "b". -/
theorem c2_witness : resolveFirst (["a"] ++ "b" :: []) c2Find = c2Find "b" :=
  (c2_resolver_first_nonempty Nat).2 ["a"] "b" [] c2Find (by decide) (by decide)

/-- Claim C3 (amended): the locator of the scrapper variant decides exactly in
the stated order — review blocks present, else click occurred, else static
anchor href absolute-normalized, else not found.  The locator of the scraper variant
never clicks and never checks review blocks: with no usable anchor
href it returns the product URL itself, never "not found" (see the
counterexample). -/
theorem c3_locator_decision (p : LocatorPage) (h : String) :
    (p.hasReviewBlocks = true → scrapperExtractReviews p = some p.currentUrl) ∧
      (p.hasReviewBlocks = false → p.clicked = true →
        scrapperExtractReviews p = some p.currentUrl) ∧
      (p.hasReviewBlocks = false → p.clicked = false → p.anchorHref = some (some h) →
        scrapperExtractReviews p = some (scrapperNormalizeAnchor h)) ∧
      (p.hasReviewBlocks = false → p.clicked = false →
        (p.anchorHref = none ∨ p.anchorHref = some none) →
        scrapperExtractReviews p = none) ∧
      (∀ url : String, scraperExtractReviews url none = url) ∧
      (∀ url h2 : String, h2 ≠ "" → strStarts h2 "http" = false →
        scraperExtractReviews url (some (some h2)) = urljoinMyntra h2) := by
  refine ⟨?_, ?_, ?_, ?_, ?_, ?_⟩
  · intro hb
    simp [scrapperExtractReviews, hb]
  · intro hb hc
    simp [scrapperExtractReviews, hb, hc]
  · intro hb hc ha
    simp [scrapperExtractReviews, hb, hc, ha]
  · intro hb hc ha
    rcases ha with ha | ha <;> simp [scrapperExtractReviews, hb, hc, ha]
  · intro url
    rfl
  · intro url h2 hne hhttp
    simp [scraperExtractReviews, hne, hhttp]

/-- The current page state of a product with no review blocks, no click,
and no reviews anchor anywhere in the static markup. -/
def c3NoAnchorPage : LocatorPage :=
  { currentUrl := "https://www.myntra.com/p/7", hasReviewBlocks := false,
    clicked := false, anchorHref := none }

/-- Claim C3 counterexample: on a product page with no review blocks, no
click and no reviews anchor, the scrapper variant returns "not found"
(`none`) as the claim states, but the locator of the scraper variant returns the
product URL itself — a URL, where the claim requires no URL. -/
theorem c3_counterexample :
    scrapperExtractReviews c3NoAnchorPage = none ∧
      scraperExtractReviews "https://www.myntra.com/p/7" none = "https://www.myntra.com/p/7" :=
  ⟨rfl, rfl⟩

/-- A located page whose static markup holds a relative reviews anchor. -/
def c3AnchorPage : LocatorPage :=
  { currentUrl := "https://www.myntra.com/p/42", hasReviewBlocks := false,
    clicked := false, anchorHref := some (some "/reviews/42") }

/-- Claim C3 witness: the third branch at a concrete page — the relative
anchor href is returned absolute-normalized. -/
theorem c3_witness :
    scrapperExtractReviews c3AnchorPage = some (scrapperNormalizeAnchor "/reviews/42") :=
  (c3_locator_decision c3AnchorPage "/reviews/42").2.2.1 rfl rfl rfl

/-- Claim C4 (amended): in the scrapper variant a per-product exception of
any kind is swallowed by the loop — that product contributes no records and
the loop continues — and `get_review_data` either returns a dataset or
fails only because discovery itself (navigation included) raised; the
loop of the scraper variant has no per-product handler and aborts the run (see
the counterexample). -/
theorem c4_per_product_isolation :
    (∀ (E α : Type) (locate : String → Except E (Option String))
        (extract : String → Except E (List α)) (u : String) (rest : List String) (e : E),
        scrapperStep locate extract u = .error e →
        scrapperRunLoop locate extract (u :: rest) = scrapperRunLoop locate extract rest) ∧
      (∀ (E α : Type) (nav : Except E (List (Option String))) (n : Nat)
          (locate : String → Except (RunError E) (Option String))
          (extract : String → Except (RunError E) (List α)),
          (∃ recs, scrapperGetReviewDataE nav n locate extract = .ok recs) ∨
            (∃ e, nav = .error e ∧
              scrapperGetReviewDataE nav n locate extract = .error (.custom e))) := by
  constructor
  · intro E α locate extract u rest e he
    simp [scrapperRunLoop, he]
  · intro E α nav n locate extract
    cases nav with
    | ok hrefs =>
      exact Or.inl ⟨_, rfl⟩
    | error e =>
      exact Or.inr ⟨e, rfl, rfl⟩

/-- A locator that raises on the first product and succeeds on the second
(scrapper-variant shape, `Option`-valued). -/
def c4Locate : String → Except Unit (Option String) :=
  fun u => if u = "p1" then .error () else .ok (some u)

/-- A locator that raises on the first product and succeeds on the second
(scraper-variant shape, `String`-valued). -/
def c4LocateS : String → Except Unit String :=
  fun u => if u = "p1" then .error () else .ok u

/-- An extractor returning one record id per review page. -/
def c4Extract : String → Except Unit (List Nat) := fun _ => .ok [5]

/-- Claim C4 counterexample: with a first product whose location raises,
the orchestration loop of the scraper variant aborts the whole run with the
error, while the per-product-catch behavior the claim describes (the
loop of the scrapper variant, on the same inputs) continues and still collects
the records of the second product. -/
theorem c4_counterexample :
    scraperRunLoop c4LocateS c4Extract ["p1", "p2"] = .error () ∧
      scrapperRunLoop c4Locate c4Extract ["p1", "p2"] = [5] :=
  ⟨rfl, rfl⟩

/-- Claim C4 witness: the failing first product is skipped and the loop
continues exactly as if it were absent. -/
theorem c4_witness :
    scrapperRunLoop c4Locate c4Extract ["p1", "p2"] =
      scrapperRunLoop c4Locate c4Extract ["p2"] :=
  c4_per_product_isolation.1 Unit Nat c4Locate c4Extract "p1" ["p2"] () (by rfl)

/-- Claim C7 (amended): when navigation to the search URL fails, `scrape_product_urls` of both
variants re-raises the error wrapped in
`CustomException`, and `get_review_data` of the scrapper variant propagates
it to the caller — the run aborts instead of returning an empty discovery
list. -/
theorem c7_nav_failure_raises (E α : Type) (e : E) (n : Nat)
    (locate : String → Except (RunError E) (Option String))
    (extract : String → Except (RunError E) (List α)) :
    scrapperScrapeProductUrlsE (Except.error e) n = .error (.custom e) ∧
      scraperScrapeProductUrlsE (Except.error e) n = .error (.custom e) ∧
      scrapperGetReviewDataE (Except.error e) n locate extract = .error (.custom e) :=
  ⟨rfl, rfl, rfl⟩

/-- The c4 locator lifted to the wrapped error type. -/
def c4LocateRE : String → Except (RunError Unit) (Option String) :=
  fun u => if u = "p1" then .error (.custom ()) else .ok (some u)

/-- The c4 extractor lifted to the wrapped error type. -/
def c4ExtractRE : String → Except (RunError Unit) (List Nat) := fun _ => .ok [5]

/-- Claim C7 counterexample: a failed search-page navigation makes the
discovery of the scrapper variant raise a wrapped error — its result is not the
empty URL list the claim requires (and the full run errors too, instead of
completing with "no reviews found"). -/
theorem c7_counterexample :
    scrapperScrapeProductUrlsE (Except.error () : Except Unit (List (Option String))) 2 =
        .error (.custom ()) ∧
      scrapperScrapeProductUrlsE (Except.error () : Except Unit (List (Option String))) 2 ≠
        .ok [] ∧
      scrapperGetReviewDataE (Except.error () : Except Unit (List (Option String))) 2
          c4LocateRE c4ExtractRE ≠ .ok [] := by
  refine ⟨rfl, ?_, ?_⟩
  · intro hc
    rw [show scrapperScrapeProductUrlsE (Except.error () : Except Unit (List (Option String))) 2 =
        .error (.custom ()) from rfl] at hc
    exact Except.noConfusion hc
  · intro hc
    rw [show scrapperGetReviewDataE (Except.error () : Except Unit (List (Option String))) 2
        c4LocateRE c4ExtractRE = .error (.custom ()) from rfl] at hc
    exact Except.noConfusion hc

/-- Claim C9: `close` never throws — it always returns a state, in every
session state including one whose initialization failed before a driver
existed — and it is idempotent: closing the state a close returned is a
no-op returning the same state. -/
theorem c9_close_idempotent_never_throws (s : Session) :
    (∃ s2, closeSession s = .ok s2 ∧ closeSession s2 = .ok s2) ∧
      (s.hasDriver = false → closeSession s = .ok s) := by
  constructor
  · by_cases hd : s.hasDriver
    · by_cases hq : s.quitFaulty
      · exact ⟨s, by simp [closeSession, closeBody, quitDriver, hd, hq],
          by simp [closeSession, closeBody, quitDriver, hd, hq]⟩
      · refine ⟨{ s with driverAlive := false }, ?_, ?_⟩
        · simp [closeSession, closeBody, quitDriver, hd, hq]
        · simp [closeSession, closeBody, quitDriver, hd, hq]
    · exact ⟨s, by simp [closeSession, closeBody, hd],
        by simp [closeSession, closeBody, hd]⟩
  · intro hd
    simp [closeSession, closeBody, hd]

/-- Claim C9 witness: a session whose initialization failed before any
driver was created closes cleanly, twice. -/
theorem c9_witness :
    (∃ s2, closeSession { hasDriver := false, driverAlive := false, quitFaulty := false } = .ok s2 ∧
        closeSession s2 = .ok s2) ∧
      closeSession { hasDriver := false, driverAlive := false, quitFaulty := false } =
        .ok { hasDriver := false, driverAlive := false, quitFaulty := false } :=
  ⟨(c9_close_idempotent_never_throws
      { hasDriver := false, driverAlive := false, quitFaulty := false }).1,
   (c9_close_idempotent_never_throws
      { hasDriver := false, driverAlive := false, quitFaulty := false }).2 rfl⟩
